import Mathlib

/-!
Shallow embedding of `src/streamlit_app.py`, a single-file Streamlit chatbot
front end ("RestaurantBot").  The script reads an API key from the secret
store, configures a generation client and an embedding client, loads or
builds a vector index over menu/review documents, and runs a per-session
chat loop over a message list kept in `st.session_state`.

Modelling conventions:
- External collaborators (the llama-index storage loader, the Google client
  constructors, the chat engine, the Streamlit cache) are opaque oracles
  carried in an `Env` record or passed as function parameters; they are
  modelled from their documented contracts, never from this repository's code.
- Python name resolution is modelled explicitly: the module's header binds a
  fixed set of names, and referencing a name outside that set raises
  `NameError`.  This matters because the rebuild branch of `load_index`
  references `SimpleDirectoryReader` and `VectorStoreIndex`, neither of which
  the module ever binds (lines 4-10 of the source bind only `StorageContext`,
  `load_index_from_storage`, `Settings`, `GoogleGenAI`, `GoogleGenAIEmbedding`,
  plus the module aliases `st`, `os`, `sys`).
- `st.stop()` and uncaught exceptions are modelled by short-circuiting
  outcomes; user-visible `st.error` displays and file/network effects are
  accumulated in explicit effect records.
-/

set_option autoImplicit false

namespace RestaurantBot

/-- Role tag of a chat message, as written by the script (only the strings
"user" and "assistant" ever occur). -/
inductive Role where
  | user
  | assistant
deriving DecidableEq, Repr

/-- A chat message as stored in `st.session_state.messages`:
`{"role": ..., "content": ...}`. -/
structure Message where
  role : Role
  content : String
deriving DecidableEq, Repr

/-- Python runtime errors that the embedded paths can raise:
`NameError` for an unbound name, and an opaque payload for errors raised by
external collaborators (network, storage, generation). -/
inductive PyError where
  | nameError (n : String)
  | otherError (msg : String)
deriving DecidableEq, Repr

/-- A vector index, opaque except for the document count it was built over
and whether it came from the persisted storage directory. -/
structure Index where
  docCount : Nat
  fromStorage : Bool
deriving DecidableEq, Repr

/-- Names bound at module level by the script's header (its module aliases
and the five names brought in from the two library packages) together with
the Python builtins the file uses.  `SimpleDirectoryReader` and
`VectorStoreIndex` are deliberately absent: the source never binds them. -/
def importedNames : List String :=
  ["st", "os", "sys",
   "StorageContext", "load_index_from_storage", "Settings",
   "GoogleGenAI", "GoogleGenAIEmbedding",
   "print", "len"]

/-- Python name lookup: a reference to a name not bound at module level
raises `NameError`. -/
def resolveName (n : String) : Except PyError Unit :=
  if importedNames.contains n then Except.ok () else Except.error (PyError.nameError n)

/-- Effect log of one `load_index` evaluation: how many times each data
source was read, how many index builds / persists happened, and how many
embedding (network) calls a build issued. -/
structure ReadLog where
  menuReads : Nat
  reviewReads : Nat
  persistReads : Nat
  indexBuilds : Nat
  embedCalls : Nat
  persistWrites : Nat
deriving DecidableEq, Repr

/-- A log recording no effect at all. -/
def ReadLog.zero : ReadLog := ⟨0, 0, 0, 0, 0, 0⟩

/-- The process environment the startup script runs against: the secret
store, the two client constructors (oracles that either succeed or raise
with a detail string), the state of the filesystem (persist directory,
menu rows, review files), and the result the external storage loader would
produce (an index, or an exception; its documented contract never returns
`None`). -/
structure Env where
  secrets : List (String × String)
  llmCtor : String → Except String Unit
  embedCtor : String → Except String Unit
  persistDirExists : Bool
  menuRows : Nat
  reviewFiles : Nat
  loadFromStorage : Except PyError Index

/-- Embedding of `load_index` (source lines 62-90), as one bare call of the
undecorated function body (the `st.cache_resource` wrapper is modelled
separately by `cache_resource_call`).  The returned value is an
`Option Index` so that Python's implicit `None` return stays expressible;
the `ReadLog` records which sources were actually read.  Each reference to
`SimpleDirectoryReader` / `VectorStoreIndex` goes through `resolveName`
because the module never binds those names. -/
def load_index (env : Env) : Except PyError (Option Index) × ReadLog :=
  if !env.persistDirExists then
    match resolveName "SimpleDirectoryReader" with
    | Except.error e => (Except.error e, ReadLog.zero)
    | Except.ok _ =>
      let menu_docs := env.menuRows
      let log1 : ReadLog := { ReadLog.zero with menuReads := 1 }
      match resolveName "SimpleDirectoryReader" with
      | Except.error e => (Except.error e, log1)
      | Except.ok _ =>
        let review_docs := env.reviewFiles
        let log2 : ReadLog := { log1 with reviewReads := 1 }
        let documents := menu_docs + review_docs
        match resolveName "VectorStoreIndex" with
        | Except.error e => (Except.error e, log2)
        | Except.ok _ =>
          let log3 : ReadLog :=
            { log2 with indexBuilds := 1, embedCalls := documents, persistWrites := 1 }
          (Except.ok (some { docCount := documents, fromStorage := false }), log3)
  else
    match env.loadFromStorage with
    | Except.error e => (Except.error e, { ReadLog.zero with persistReads := 1 })
    | Except.ok idx => (Except.ok (some idx), { ReadLog.zero with persistReads := 1 })

/-- Modelled from the spec: `st.cache_resource` memoizes the decorated
function's return value per process ("computed at most once per process"),
so a call with a warm cache returns the cached value and runs no body;
exceptions are not cached.  Result of one call through the wrapper. -/
structure CacheResult where
  value : Except PyError (Option Index)
  cache : Option (Option Index)
  reads : ReadLog
deriving Repr

/-- One invocation of the cached `load_index` (the decorated function of
source line 62): `cache` is the process-wide memo cell before the call. -/
def cache_resource_call (env : Env) (cache : Option (Option Index)) : CacheResult :=
  match cache with
  | some v => { value := Except.ok v, cache := some v, reads := ReadLog.zero }
  | none =>
    match load_index env with
    | (Except.ok v, log) => { value := Except.ok v, cache := some v, reads := log }
    | (Except.error e, log) => { value := Except.error e, cache := none, reads := log }

/-- The error message displayed when the credential is absent (line 25). -/
def apiKeyErrorMsg : String :=
  "API Key not found. Please add it to your Streamlit Secrets."

/-- The error message displayed when client construction raises (line 39);
it embeds the underlying exception's detail. -/
def setupErrorMsg (d : String) : String :=
  "Error setting up Google AI. Check your API key. Details: " ++ d

/-- Generation model name bound at line 31. -/
def LLM_MODEL : String := "models/gemini-1.5-flash"

/-- Embedding model name bound at line 35. -/
def EMBED_MODEL : String := "models/embedding-001"

/-- Effects accumulated by the top-level startup script: every `st.error`
display in order, the credential value passed to each client constructor in
order, the clients installed on `Settings` (model name, api key), and the
file/network effects of the index step. -/
structure Effects where
  errorDisplays : List String
  configuratorKeys : List String
  llmConfigured : Option (String × String)
  embedConfigured : Option (String × String)
  reads : ReadLog
deriving DecidableEq, Repr

/-- The empty effect record the script starts from. -/
def Effects.init : Effects := ⟨[], [], none, none, ReadLog.zero⟩

/-- How far the startup script (source lines 22-94) gets: a clean
`st.stop()` at one of its three guard points, an uncaught exception, or
ready with the loaded index. -/
inductive Outcome where
  | stoppedMissingKey
  | stoppedSetupError
  | stoppedNoneIndex
  | crashed (e : PyError)
  | ready (idx : Index)
deriving DecidableEq, Repr

/-- Result of one run of the startup script: outcome plus effect log. -/
structure AppRun where
  outcome : Outcome
  eff : Effects
deriving Repr

/-- Embedding of the top-level startup script, lines 22-94 of the source:
the secret-store check (lines 22-26), the guarded client construction
(lines 29-40, one `try` around both constructors, so a failure of the first
skips the second), the cold first call of `load_index` (line 92), and the
`index is None` guard (lines 93-94).  `st.stop()` and uncaught exceptions
short-circuit everything after them, so an early stop leaves the remaining
effects at their initial (empty) values. -/
def runApp (env : Env) : AppRun :=
  match env.secrets.lookup "GOOGLE_API_KEY" with
  | none =>
    { outcome := Outcome.stoppedMissingKey,
      eff := { Effects.init with errorDisplays := [apiKeyErrorMsg] } }
  | some google_api_key =>
    let eff0 : Effects := { Effects.init with configuratorKeys := [google_api_key] }
    match env.llmCtor google_api_key with
    | Except.error d =>
      { outcome := Outcome.stoppedSetupError,
        eff := { eff0 with errorDisplays := [setupErrorMsg d] } }
    | Except.ok _ =>
      let eff1 : Effects :=
        { eff0 with llmConfigured := some (LLM_MODEL, google_api_key),
                    configuratorKeys := eff0.configuratorKeys ++ [google_api_key] }
      match env.embedCtor google_api_key with
      | Except.error d =>
        { outcome := Outcome.stoppedSetupError,
          eff := { eff1 with errorDisplays := [setupErrorMsg d] } }
      | Except.ok _ =>
        let eff2 : Effects :=
          { eff1 with embedConfigured := some (EMBED_MODEL, google_api_key) }
        match load_index env with
        | (Except.error e, log) =>
          { outcome := Outcome.crashed e, eff := { eff2 with reads := log } }
        | (Except.ok none, log) =>
          { outcome := Outcome.stoppedNoneIndex, eff := { eff2 with reads := log } }
        | (Except.ok (some idx), log) =>
          { outcome := Outcome.ready idx, eff := { eff2 with reads := log } }

/-- The fixed system prompt, source lines 44-59 (apostrophes and quotes are
escaped; the text is otherwise verbatim). -/
def SYSTEM_PROMPT : String :=
"\nYou are \"RestaurantBot,\" an expert, friendly, and helpful waiter for our restaurant.\nYour primary goal is to help customers find the perfect dish.\n\nYou must follow these rules at all times:\n1.  **Use ONLY the provided data.** Never make up a dish, price, or ingredient.\n2.  **Be Friendly and Conversational:** Do not just list data. Talk like a helpful waiter.\n3.  **Answer Allergen Questions:** Use the `tags` data to answer questions about allergens (`contains_gluten`, `contains_nuts`, etc.) and dietary needs (`vegan`, `is_halal`).\n4.  **Answer \"What\x27s Good?\":** Use the customer reviews to answer questions like \"What\x27s good?\" or \"What\x27s popular?\"\n5.  **ADVANCED PAIRING LOGIC:** When asked for a pairing or recommendation, you must use the following rules based on the `tags`:\n    * **Rule 1 (Spice):** Spicy dishes (`spicy`) pair well with cooling, sweet drinks (`cooling`, `sweet`) or light, crisp beers (`light`, `crisp`).\n    * **Rule 2 (Intensity):** Rich, heavy dishes (`rich`, `heavy`, `red_meat`) pair with full-bodied drinks (like a `red_wine` with `tannic` tags).\n    * **Rule 3 (Intensity):** Light, delicate dishes (`light`, `delicate`, `fish`, `poultry`) pair with light-bodied, acidic drinks (like a `white_wine` with `crisp`, `acidic` tags).\n    * **Rule 4 (Contrast):** Acidic drinks (`acidic`) can cut through rich, creamy dishes (`rich`, `creamy`).\n6.  **Explain Your Recommendations:** When you recommend a pairing, *always explain why* using the rules.\n"

/-- The seed assistant greeting (source line 109). -/
def GREETING : String := "Hi! I\x27m RestaurantBot. Ask me anything about the menu."

/-- The one-element message list the session is seeded with (lines 107-110). -/
def seedMessages : List Message := [{ role := Role.assistant, content := GREETING }]

/-- The chat engine object produced by `index.as_chat_engine` (lines 98-101):
it holds the chat mode, the system prompt and the wrapped index. -/
structure ChatEngine where
  chat_mode : String
  system_prompt : String
  idx : Index
deriving DecidableEq, Repr

/-- The engine the script constructs: `chat_mode="context"` with the fixed
system prompt, over the process index. -/
def mkChatEngine (idx : Index) : ChatEngine :=
  { chat_mode := "context", system_prompt := SYSTEM_PROMPT, idx := idx }

/-- Per-session `st.session_state`: each key is absent until first assigned,
hence the `Option`s.  A fresh session has neither key. -/
structure Session where
  chat_engine : Option ChatEngine
  messages : Option (List Message)
deriving DecidableEq, Repr

/-- Session state at session start, before the first script run. -/
def freshSession : Session := ⟨none, none⟩

/-- Result of one script rerun over a session: the updated session state,
the exception (if any) that escaped the run, and how many times the chat
engine was invoked during the run. -/
structure RerunResult where
  session : Session
  raised : Option PyError
  chatCalls : Nat
deriving Repr

/-- Embedding of one Streamlit rerun of the per-session part of the script
(sections 5-7, source lines 97-127) over session state `s`:
create the chat engine only if the session does not have one yet
(lines 97-101), seed the message list only if absent (lines 107-110),
then, when the input box returned a query (line 117), append the user
message (line 118), invoke the engine once (line 124) — an exception there
escapes the run, leaving the already-appended user message in place — and
on success append the assistant message (line 127).  `chat` is the oracle
for `chat_engine.chat`. -/
def rerun (idx : Index) (chat : ChatEngine → String → Except PyError String)
    (s : Session) (input : Option String) : RerunResult :=
  let engine := s.chat_engine.getD (mkChatEngine idx)
  let s1 : Session := { s with chat_engine := some engine }
  let msgs := s1.messages.getD seedMessages
  let s2 : Session := { s1 with messages := some msgs }
  match input with
  | none => { session := s2, raised := none, chatCalls := 0 }
  | some q =>
    let msgs1 := msgs ++ [{ role := Role.user, content := q }]
    match chat engine q with
    | Except.error e =>
      { session := { s2 with messages := some msgs1 }, raised := some e, chatCalls := 1 }
    | Except.ok r =>
      { session := { s2 with messages := some (msgs1 ++ [{ role := Role.assistant, content := r }]) },
        raised := none, chatCalls := 1 }

/-- Lift a never-failing chat oracle into the fallible interface, for
sessions in which every generation call succeeds. -/
def okChat (chat : ChatEngine → String → String) :
    ChatEngine → String → Except PyError String :=
  fun e q => Except.ok (chat e q)

/-- Session state after the initial page load (a rerun with no input) and
then one successful user turn per element of `qs`, in order. -/
def sessionAfter (idx : Index) (chat : ChatEngine → String → String)
    (qs : List String) : Session :=
  qs.foldl (fun s q => (rerun idx (okChat chat) s (some q)).session)
    (rerun idx (okChat chat) freshSession none).session

/-- The role sequence of `n` user/assistant pairs. -/
def pairsPattern : Nat → List Role
  | 0 => []
  | n + 1 => Role.user :: Role.assistant :: pairsPattern n

/-- The role sequence of a well-formed transcript: the assistant seed
followed by `n` strictly alternating user/assistant pairs. -/
def rolePattern (n : Nat) : List Role := Role.assistant :: pairsPattern n

/-! Helper lemmas about single reruns and folded sessions. -/

/-- After any rerun, the session's engine is the pre-existing one if there
was one, and a fresh `mkChatEngine idx` otherwise. -/
lemma rerun_chat_engine_eq (idx : Index) (chat : ChatEngine → String → Except PyError String)
    (s : Session) (input : Option String) :
    (rerun idx chat s input).session.chat_engine
      = some (s.chat_engine.getD (mkChatEngine idx)) := by
  cases input with
  | none => rfl
  | some q =>
    cases h : chat (s.chat_engine.getD (mkChatEngine idx)) q <;>
      simp [rerun, h]

/-- A rerun with no input only seeds the message list if it was absent. -/
lemma rerun_messages_no_input (idx : Index)
    (chat : ChatEngine → String → Except PyError String) (s : Session) :
    (rerun idx chat s none).session.messages = some (s.messages.getD seedMessages) := rfl

/-- A turn whose chat call raises appends exactly the user message and
reports the exception, after one engine call. -/
lemma rerun_messages_err (idx : Index) (chat : ChatEngine → String → Except PyError String)
    (s : Session) (q : String) (e : PyError)
    (h : chat (s.chat_engine.getD (mkChatEngine idx)) q = Except.error e) :
    (rerun idx chat s (some q)).session.messages
      = some ((s.messages.getD seedMessages) ++ [{ role := Role.user, content := q }])
    ∧ (rerun idx chat s (some q)).raised = some e
    ∧ (rerun idx chat s (some q)).chatCalls = 1 := by
  refine ⟨?_, ?_, ?_⟩ <;> simp [rerun, h]

/-- A successful turn appends the user message and then the assistant
response. -/
lemma rerun_messages_ok (idx : Index) (chat : ChatEngine → String → Except PyError String)
    (s : Session) (q r : String)
    (h : chat (s.chat_engine.getD (mkChatEngine idx)) q = Except.ok r) :
    (rerun idx chat s (some q)).session.messages
      = some ((s.messages.getD seedMessages)
          ++ [{ role := Role.user, content := q }, { role := Role.assistant, content := r }]) := by
  simp [rerun, h]

/-- The role sequence of `n` pairs has length `2 * n`. -/
lemma pairsPattern_length (n : Nat) : (pairsPattern n).length = 2 * n := by
  induction n with
  | zero => rfl
  | succ m ih => simp [pairsPattern, ih]; omega

/-- Folding successful turns over a session whose message list is present
only ever appends, and the appended tail's roles are the strict
user/assistant alternation. -/
lemma foldl_messages (idx : Index) (chat : ChatEngine → String → String) :
    ∀ (qs : List String) (s : Session) (l : List Message), s.messages = some l →
      ∃ t, (qs.foldl (fun s q => (rerun idx (okChat chat) s (some q)).session) s).messages
            = some (l ++ t)
        ∧ t.map Message.role = pairsPattern qs.length := by
  intro qs
  induction qs with
  | nil =>
    intro s l h
    exact ⟨[], by simpa using h, rfl⟩
  | cons q qs ih =>
    intro s l h
    have hok := rerun_messages_ok idx (okChat chat) s q
      (chat (s.chat_engine.getD (mkChatEngine idx)) q) rfl
    rw [h] at hok
    simp only [Option.getD_some] at hok
    obtain ⟨t, ht, hmap⟩ := ih ((rerun idx (okChat chat) s (some q)).session) _ hok
    refine ⟨{ role := Role.user, content := q }
        :: { role := Role.assistant,
             content := chat (s.chat_engine.getD (mkChatEngine idx)) q } :: t, ?_, ?_⟩
    · simpa [List.append_assoc] using ht
    · simp [pairsPattern, hmap]

/-- Folding turns never replaces an existing engine. -/
lemma foldl_chat_engine (idx : Index) (chat : ChatEngine → String → String) :
    ∀ (qs : List String) (s : Session) (e : ChatEngine), s.chat_engine = some e →
      (qs.foldl (fun s q => (rerun idx (okChat chat) s (some q)).session) s).chat_engine
        = some e := by
  intro qs
  induction qs with
  | nil => intro s e h; simpa using h
  | cons q qs ih =>
    intro s e h
    refine ih _ e ?_
    rw [rerun_chat_engine_eq, h]
    rfl

/-- The session state right after the initial page load. -/
lemma sessionAfter_nil (idx : Index) (chat : ChatEngine → String → String) :
    (rerun idx (okChat chat) freshSession none).session
      = { chat_engine := some (mkChatEngine idx), messages := some seedMessages } := rfl

/-! Concrete environments used to evaluate the embedding on closed inputs. -/

/-- A healthy environment: key present, constructors succeed, persisted
index present on disk with 8 documents. -/
def baseEnv : Env :=
  { secrets := [("GOOGLE_API_KEY", "k0")],
    llmCtor := fun _ => Except.ok (),
    embedCtor := fun _ => Except.ok (),
    persistDirExists := true,
    menuRows := 5,
    reviewFiles := 3,
    loadFromStorage := Except.ok { docCount := 8, fromStorage := true } }

/-- Same as `baseEnv` but the secret store has no entry at all. -/
def envMissingKey : Env := { baseEnv with secrets := [] }

/-- Same as `baseEnv` but the persistence directory is absent, forcing the
rebuild branch of `load_index`. -/
def envNoStorage : Env := { baseEnv with persistDirExists := false }

/-- Same as `baseEnv` but the generation-client constructor raises. -/
def envLlmFail : Env := { baseEnv with llmCtor := fun _ => Except.error "bad key" }

/-- C1: the claim says that when the persistence path is absent,
`load_index` reads the menu file and the reviews directory, builds an index
over menu-rows + review-files documents, persists and returns it.  The code
cannot do this: its rebuild branch references `SimpleDirectoryReader`
(line 71) and `VectorStoreIndex` (line 83), but the module header imports
neither, so the branch raises `NameError` at its first statement — before
any file is read, any index built, or anything persisted.  The
deserialize-branch half of the claim does hold, as the last two conjuncts
show on a store holding an 8-document index. -/
theorem load_index_rebuild_raises_nameError :
    (load_index envNoStorage).1 = Except.error (PyError.nameError "SimpleDirectoryReader")
    ∧ (load_index envNoStorage).2 = ReadLog.zero
    ∧ (load_index baseEnv).1 = Except.ok (some { docCount := 8, fromStorage := true })
    ∧ (load_index baseEnv).2 = { ReadLog.zero with persistReads := 1 } := by
  refine ⟨?_, ?_, ?_, ?_⟩ <;> rfl

/-- C6: `load_index` is memoized per process by `st.cache_resource`: if the
first (cold) call succeeds with value `v`, the warm cache holds `v`, and a
second call returns the same cached value while performing no read of the
source files or the persistence directory. -/
theorem load_index_memoized (env : Env) (v : Option Index)
    (h : (load_index env).1 = Except.ok v) :
    (cache_resource_call env none).value = Except.ok v
    ∧ (cache_resource_call env none).cache = some v
    ∧ (cache_resource_call env (cache_resource_call env none).cache).value = Except.ok v
    ∧ (cache_resource_call env (cache_resource_call env none).cache).reads = ReadLog.zero
    ∧ (cache_resource_call env (cache_resource_call env none).cache).cache = some v := by
  rcases hl : load_index env with ⟨w, log⟩
  have hw : w = Except.ok v := by rw [hl] at h; exact h
  subst hw
  simp [cache_resource_call, hl]

/-- C6 witness: on the healthy environment the cold call loads the stored
8-document index and the warm call returns it again with zero reads. -/
theorem load_index_memoized_witness :
    (cache_resource_call baseEnv none).value
        = Except.ok (some { docCount := 8, fromStorage := true })
    ∧ (cache_resource_call baseEnv none).cache
        = some (some { docCount := 8, fromStorage := true })
    ∧ (cache_resource_call baseEnv (cache_resource_call baseEnv none).cache).value
        = Except.ok (some { docCount := 8, fromStorage := true })
    ∧ (cache_resource_call baseEnv (cache_resource_call baseEnv none).cache).reads
        = ReadLog.zero
    ∧ (cache_resource_call baseEnv (cache_resource_call baseEnv none).cache).cache
        = some (some { docCount := 8, fromStorage := true }) :=
  load_index_memoized baseEnv (some { docCount := 8, fromStorage := true }) rfl

/-- C10: `load_index` never returns Python's implicit `None`: every
non-raising path returns an index (here, necessarily the deserialized one,
since the rebuild branch always raises), so the `if index is None` guard at
lines 93-94 is unreachable and the script never stops there. -/
theorem load_index_never_none (env : Env) :
    (load_index env).1 ≠ Except.ok none
    ∧ (runApp env).outcome ≠ Outcome.stoppedNoneIndex := by
  have h1 : (load_index env).1 ≠ Except.ok none := by
    cases hp : env.persistDirExists with
    | false =>
      simp [load_index, hp, resolveName, importedNames]
    | true =>
      cases hs : env.loadFromStorage with
      | error e => simp [load_index, hp, hs]
      | ok idx => simp [load_index, hp, hs]
  refine ⟨h1, ?_⟩
  simp only [runApp]
  cases hsk : env.secrets.lookup "GOOGLE_API_KEY" with
  | none => simp
  | some k =>
    cases hc : env.llmCtor k with
    | error d => simp [hc]
    | ok u =>
      cases hec : env.embedCtor k with
      | error d => simp [hc, hec]
      | ok u2 =>
        rcases hl : load_index env with ⟨v, log⟩
        rcases v with e | v
        · simp [hc, hec]
        · rcases v with _ | idx
          · exact absurd (by rw [hl]) h1
          · simp [hc, hec]

/-- C2: after the initial load and `N` successful user turns, the session's
message list exists, its roles are exactly the assistant seed followed by
`N` strictly alternating user/assistant pairs (all roles drawn from the
two-element `Role` type), its length is `1 + 2N`, and it starts with the
single seed greeting. -/
theorem messages_length_and_roles (idx : Index) (chat : ChatEngine → String → String)
    (qs : List String) :
    ∃ l, (sessionAfter idx chat qs).messages = some l
      ∧ l.map Message.role = rolePattern qs.length
      ∧ l.length = 1 + 2 * qs.length
      ∧ ∃ rest, l = seedMessages ++ rest := by
  obtain ⟨t, ht, hmap⟩ := foldl_messages idx chat qs
    ((rerun idx (okChat chat) freshSession none).session) seedMessages rfl
  refine ⟨seedMessages ++ t, ht, ?_, ?_, ⟨t, rfl⟩⟩
  · simp [seedMessages, rolePattern, hmap]
  · have hlen : t.length = 2 * qs.length := by
      have := congrArg List.length hmap
      simpa [pairsPattern_length] using this
    simp [seedMessages, hlen]
    omega

/-- C3: when the secret store has no `GOOGLE_API_KEY`, the startup run is
exactly the missing-key stop with the single error display and otherwise
empty effects — no client configured, no key handed out, no file read, no
index build, no embedding (network) call; when the key is present, its
value is what gets passed to the client configurators. -/
theorem missing_key_halts (env : Env) :
    (env.secrets.lookup "GOOGLE_API_KEY" = none →
      runApp env = { outcome := Outcome.stoppedMissingKey,
                     eff := { Effects.init with errorDisplays := [apiKeyErrorMsg] } })
    ∧ (∀ k, env.secrets.lookup "GOOGLE_API_KEY" = some k →
        (runApp env).eff.configuratorKeys.head? = some k) := by
  constructor
  · intro h
    simp [runApp, h]
  · intro k h
    simp only [runApp, h]
    cases hc : env.llmCtor k with
    | error d => simp [hc]
    | ok u =>
      cases hec : env.embedCtor k with
      | error d => simp [hc, hec]
      | ok u2 =>
        rcases hl : load_index env with ⟨v, log⟩
        rcases v with e | v
        · simp [hc, hec]
        · rcases v with _ | idx <;> simp [hc, hec]

/-- C3 witness: the environment with an empty secret store halts with the
one message and empty effects, and the environment holding the key "k0"
passes "k0" to the configurators. -/
theorem missing_key_halts_witness :
    runApp envMissingKey = { outcome := Outcome.stoppedMissingKey,
                             eff := { Effects.init with errorDisplays := [apiKeyErrorMsg] } }
    ∧ (runApp baseEnv).eff.configuratorKeys.head? = some "k0" :=
  ⟨(missing_key_halts envMissingKey).1 rfl,
   (missing_key_halts baseEnv).2 "k0" rfl⟩

/-- C4: an exception in either client constructor is caught and turned into
a clean stop whose single display embeds the underlying detail (a failure
of the first constructor skips the second, as both sit in one `try`); and
these are the only caught failures: an exception escaping `load_index`
crashes the run with no display at all. -/
theorem setup_errors_caught (env : Env) (k d : String) (e : PyError) :
    (env.secrets.lookup "GOOGLE_API_KEY" = some k →
      env.llmCtor k = Except.error d →
      (runApp env).outcome = Outcome.stoppedSetupError
      ∧ (runApp env).eff.errorDisplays = [setupErrorMsg d])
    ∧ (env.secrets.lookup "GOOGLE_API_KEY" = some k →
      env.llmCtor k = Except.ok () →
      env.embedCtor k = Except.error d →
      (runApp env).outcome = Outcome.stoppedSetupError
      ∧ (runApp env).eff.errorDisplays = [setupErrorMsg d])
    ∧ (env.secrets.lookup "GOOGLE_API_KEY" = some k →
      env.llmCtor k = Except.ok () →
      env.embedCtor k = Except.ok () →
      (load_index env).1 = Except.error e →
      (runApp env).outcome = Outcome.crashed e
      ∧ (runApp env).eff.errorDisplays = []) := by
  refine ⟨?_, ?_, ?_⟩
  · intro hk hc
    simp [runApp, hk, hc]
  · intro hk hc hec
    simp [runApp, hk, hc, hec]
  · intro hk hc hec hl
    rcases hp : load_index env with ⟨v, log⟩
    have hv : v = Except.error e := by rw [hp] at hl; exact hl
    subst hv
    simp [runApp, hk, hc, hec, hp, Effects.init]

/-- C4 witness: a failing generation-client constructor yields the clean
stop with its detail in the display, and the rebuild-branch `NameError`
escaping `load_index` (on the environment with no persisted index) yields
a crash with no display. -/
theorem setup_errors_caught_witness :
    ((runApp envLlmFail).outcome = Outcome.stoppedSetupError
      ∧ (runApp envLlmFail).eff.errorDisplays = [setupErrorMsg "bad key"])
    ∧ ((runApp envNoStorage).outcome
        = Outcome.crashed (PyError.nameError "SimpleDirectoryReader")
      ∧ (runApp envNoStorage).eff.errorDisplays = []) :=
  ⟨(setup_errors_caught envLlmFail "k0" "bad key" (PyError.otherError "")).1 rfl rfl,
   (setup_errors_caught envNoStorage "k0" ""
      (PyError.nameError "SimpleDirectoryReader")).2.2 rfl rfl rfl rfl⟩

/-- C5: when the per-turn chat call raises, the exception escapes the turn
handler: the run reports it, the engine was invoked exactly once (no
retry), and the message list gained only the user message — no graceful
degradation message of any kind is appended. -/
theorem chat_error_propagates (idx : Index)
    (chat : ChatEngine → String → Except PyError String) (s : Session)
    (q : String) (e : PyError)
    (h : chat (s.chat_engine.getD (mkChatEngine idx)) q = Except.error e) :
    (rerun idx chat s (some q)).raised = some e
    ∧ (rerun idx chat s (some q)).chatCalls = 1
    ∧ (rerun idx chat s (some q)).session.messages
        = some ((s.messages.getD seedMessages) ++ [{ role := Role.user, content := q }]) := by
  obtain ⟨h1, h2, h3⟩ := rerun_messages_err idx chat s q e h
  exact ⟨h2, h3, h1⟩

/-- C5 witness: a turn whose chat oracle always raises a network error
leaves the fresh session with seed + user message, the error reported, and
one engine call. -/
theorem chat_error_propagates_witness :
    (rerun { docCount := 8, fromStorage := true }
        (fun _ _ => Except.error (PyError.otherError "network"))
        freshSession (some "hi")).raised = some (PyError.otherError "network")
    ∧ (rerun { docCount := 8, fromStorage := true }
        (fun _ _ => Except.error (PyError.otherError "network"))
        freshSession (some "hi")).chatCalls = 1
    ∧ (rerun { docCount := 8, fromStorage := true }
        (fun _ _ => Except.error (PyError.otherError "network"))
        freshSession (some "hi")).session.messages
        = some (seedMessages ++ [{ role := Role.user, content := "hi" }]) :=
  chat_error_propagates { docCount := 8, fromStorage := true }
    (fun _ _ => Except.error (PyError.otherError "network"))
    freshSession "hi" (PyError.otherError "network") rfl

/-- C7: the chat engine is created exactly once per session — any rerun
leaves an existing engine untouched and creates one (context mode, fixed
system prompt, over the process index) only when the session has none; in
particular a whole session of successful turns keeps the engine created at
the first run. -/
theorem chat_engine_created_once (idx : Index)
    (chat : ChatEngine → String → Except PyError String) (s : Session)
    (input : Option String) (chat2 : ChatEngine → String → String)
    (qs : List String) :
    (rerun idx chat s input).session.chat_engine
        = some (s.chat_engine.getD (mkChatEngine idx))
    ∧ (sessionAfter idx chat2 qs).chat_engine = some (mkChatEngine idx)
    ∧ (mkChatEngine idx).chat_mode = "context"
    ∧ (mkChatEngine idx).system_prompt = SYSTEM_PROMPT := by
  refine ⟨rerun_chat_engine_eq idx chat s input, ?_, rfl, rfl⟩
  exact foldl_chat_engine idx chat2 qs
    ((rerun idx (okChat chat2) freshSession none).session) (mkChatEngine idx) rfl

/-- C8: the message list is append-only — whatever the input and however
the chat call behaves, the list a rerun leaves behind is the prior list
(the seed, when the key was absent) extended by a suffix; no existing
message is removed or edited. -/
theorem messages_append_only (idx : Index)
    (chat : ChatEngine → String → Except PyError String) (s : Session)
    (input : Option String) :
    ∃ t, (rerun idx chat s input).session.messages
      = some ((s.messages.getD seedMessages) ++ t) := by
  cases input with
  | none => exact ⟨[], by simp [rerun_messages_no_input]⟩
  | some q =>
    cases h : chat (s.chat_engine.getD (mkChatEngine idx)) q with
    | error e =>
      exact ⟨[{ role := Role.user, content := q }], (rerun_messages_err idx chat s q e h).1⟩
    | ok r =>
      exact ⟨[{ role := Role.user, content := q }, { role := Role.assistant, content := r }],
        rerun_messages_ok idx chat s q r h⟩

/-- C9: a turn is not atomic on error — the user message is committed
before the chat call, so a raising call leaves the list ending in that user
message with no matching assistant reply: the pre-turn state is not
restored, and a list of the well-formed length `1 + 2N` moves to length
`2 + 2N`, which is `1 + 2M` for no `M`. -/
theorem turn_not_atomic (idx : Index)
    (chat : ChatEngine → String → Except PyError String) (s : Session)
    (l : List Message) (q : String) (e : PyError)
    (hm : s.messages = some l)
    (h : chat (s.chat_engine.getD (mkChatEngine idx)) q = Except.error e) :
    (rerun idx chat s (some q)).session.messages
        = some (l ++ [{ role := Role.user, content := q }])
    ∧ (rerun idx chat s (some q)).raised = some e
    ∧ l ++ [{ role := Role.user, content := q }] ≠ l
    ∧ ∀ n m : Nat, l.length = 1 + 2 * n →
        (l ++ [({ role := Role.user, content := q } : Message)]).length ≠ 1 + 2 * m := by
  obtain ⟨h1, h2, _⟩ := rerun_messages_err idx chat s q e h
  rw [hm] at h1
  simp only [Option.getD_some] at h1
  refine ⟨h1, h2, ?_, ?_⟩
  · intro hcontra
    have := congrArg List.length hcontra
    simp at this
  · intro n m hn
    simp [hn]
    omega

/-- C9 witness: on a session holding just the seed, a raising turn leaves
seed + user message (length 2, not of the form 1 + 2M). -/
theorem turn_not_atomic_witness :
    (rerun { docCount := 8, fromStorage := true }
        (fun _ _ => Except.error (PyError.otherError "boom"))
        { chat_engine := none, messages := some seedMessages }
        (some "hello")).session.messages
      = some (seedMessages ++ [{ role := Role.user, content := "hello" }])
    ∧ (rerun { docCount := 8, fromStorage := true }
        (fun _ _ => Except.error (PyError.otherError "boom"))
        { chat_engine := none, messages := some seedMessages }
        (some "hello")).raised = some (PyError.otherError "boom")
    ∧ seedMessages ++ [{ role := Role.user, content := "hello" }] ≠ seedMessages
    ∧ ∀ n m : Nat, seedMessages.length = 1 + 2 * n →
        (seedMessages ++ [({ role := Role.user, content := "hello" } : Message)]).length
          ≠ 1 + 2 * m :=
  turn_not_atomic { docCount := 8, fromStorage := true }
    (fun _ _ => Except.error (PyError.otherError "boom"))
    { chat_engine := none, messages := some seedMessages }
    seedMessages "hello" (PyError.otherError "boom") rfl rfl

end RestaurantBot
